import Mathlib

set_option maxHeartbeats 1000000

/-!
Shallow embedding of `upup/pkg/fi/cloudup/defaults.go` (kops cluster-spec
defaulting engine).  Go strings are modelled as lists of characters; the
external collaborators (cloud provider construction and VPC lookup, channel
loading, the latest-stable-version endpoint, and the subnet CIDR allocator)
are explicit parameters gathered in an `Env` value.  In-place mutation of the
cluster is modelled by returning the final cluster state together with the
optional error, so that state reached before a failing step is visible on the
error path, exactly as for the Go pointer argument.
-/

abbrev Str := List Char

abbrev Err := Str

/-- Modelled from the spec: placement mode for masters/nodes, one of
{Public, Private} (`kops.TopologyPublic` etc. are defined outside this file). -/
inductive TopologyMode where
  | Public
  | Private
deriving DecidableEq, Repr

/-- `kops.TopologySpec`: placement modes for masters and nodes. -/
structure TopologySpec where
  masters : TopologyMode
  nodes : TopologyMode
deriving DecidableEq, Repr

/-- `kops.EgressProxySpec`, restricted to the one field this file touches. -/
structure EgressProxySpec where
  proxyExcludes : Str
deriving DecidableEq, Repr

/-- A subnet as seen by the external CIDR allocator: modelled from the spec,
which only requires that the allocator "assigns CIDR ranges to subnets". -/
structure Subnet where
  subnetName : Str
  cidr : Str
deriving DecidableEq, Repr

/-- The fields of `kops.ClusterSpec` read or written by `defaults.go`. -/
structure ClusterSpec where
  networkID : Str
  networkCIDR : Str
  nonMasqueradeCIDR : Str
  topology : Option TopologySpec
  masterPublicName : Str
  kubernetesVersion : Str
  channel : Str
  egressProxy : Option EgressProxySpec
  clusterDNSDomain : Str
  subnets : List Subnet
deriving DecidableEq, Repr

/-- `kops.Cluster`: `ObjectMeta.Name` plus the spec. -/
structure Cluster where
  name : Str
  spec : ClusterSpec
deriving DecidableEq, Repr

/-- Modelled from the spec: a shared VPC is "a cluster configured to use a
network it does not own/manage, requiring lookup rather than default CIDR
assignment" — the cluster names a pre-existing network via `NetworkID`
(`c.SharedVPC()` in the source, defined outside this file). -/
def Cluster.sharedVPC (c : Cluster) : Bool := !c.spec.networkID.isEmpty

/-- `fi.VPCInfo` as used here: carries the CIDR of an existing network. -/
structure VPCInfo where
  cidr : Str
deriving DecidableEq, Repr

/-- The external cloud collaborator returned by `BuildCloud`; `FindVPCInfo`
may error, find nothing, or return VPC information. -/
structure Cloud where
  findVPCInfo : Str → Except Err (Option VPCInfo)

/-- Modelled from the spec: a channel descriptor "carries a recommended
Kubernetes version string, versioned and potentially absent" — the field holds
the result of `RecommendedKubernetesVersion` for the running tool version. -/
structure Channel where
  recommendedVersion : Option Str

/-- The external collaborators of `defaults.go`, as one record of pure
functions: `BuildCloud`, `kops.LoadChannel`, the `vfs` read of the stable-URL
endpoint, and `assignCIDRsToSubnets` (which returns the new subnet list and an
optional error; on error the partially assigned subnets are still stored, as
for the in-place Go mutation). -/
structure Env where
  buildCloud : Cluster → Except Err Cloud
  loadChannel : Str → Except Err Channel
  readStableURL : Except Err Str
  assignCIDRsToSubnets : Cluster → List Subnet × Option Err

/-- Field update helper for `c.Spec.NetworkCIDR = v`. -/
def setNetworkCIDR (c : Cluster) (v : Str) : Cluster :=
  { c with spec := { c.spec with networkCIDR := v } }

/-- Field update helper for `c.Spec.Topology = v`. -/
def setTopology (c : Cluster) (v : Option TopologySpec) : Cluster :=
  { c with spec := { c.spec with topology := v } }

/-- Field update helper for `c.Spec.NonMasqueradeCIDR = v`. -/
def setNonMasqueradeCIDR (c : Cluster) (v : Str) : Cluster :=
  { c with spec := { c.spec with nonMasqueradeCIDR := v } }

/-- Field update helper for `c.Spec.MasterPublicName = v`. -/
def setMasterPublicName (c : Cluster) (v : Str) : Cluster :=
  { c with spec := { c.spec with masterPublicName := v } }

/-- Field update helper for `c.Spec.KubernetesVersion = v`. -/
def setKubernetesVersion (c : Cluster) (v : Str) : Cluster :=
  { c with spec := { c.spec with kubernetesVersion := v } }

/-- Field update helper for `c.Spec.EgressProxy = v`. -/
def setEgressProxy (c : Cluster) (v : Option EgressProxySpec) : Cluster :=
  { c with spec := { c.spec with egressProxy := v } }

/-- Field update helper for storing the allocator's subnet list. -/
def setSubnets (c : Cluster) (v : List Subnet) : Cluster :=
  { c with spec := { c.spec with subnets := v } }

/-- The message of `fmt.Errorf("unable to find VPC ID %q", ...)`. -/
def vpcNotFoundError (id : Str) : Err :=
  "unable to find VPC ID ".toList ++ ('"' :: (id ++ ['"']))

/-- The message of the `fmt.Errorf` raised when the resolved VPC has no CIDR. -/
def networkCIDRMissingError : Err :=
  "Unable to infer NetworkCIDR from VPC ID, please specify --network-cidr".toList

/-- The first step of `PerformAssignments`: if the cluster uses a shared VPC
and `NetworkCIDR` is empty, look the network up via the cloud collaborator and
store the resulting CIDR, failing if the lookup errors, finds nothing, or
yields an empty CIDR. -/
def resolveSharedNetworkCIDR (cloud : Cloud) (c : Cluster) : Cluster × Option Err :=
  if c.sharedVPC && c.spec.networkCIDR.isEmpty then
    match cloud.findVPCInfo c.spec.networkID with
    | .error e => (c, some e)
    | .ok none => (c, some (vpcNotFoundError c.spec.networkID))
    | .ok (some vpcInfo) =>
      let c' := setNetworkCIDR c vpcInfo.cidr
      if c'.spec.networkCIDR.isEmpty then (c', some networkCIDRMissingError)
      else (c', none)
  else (c, none)

/-- `if c.Spec.Topology == nil` default to Public/Public. -/
def defaultTopology (c : Cluster) : Cluster :=
  if c.spec.topology.isNone then
    setTopology c (some { masters := TopologyMode.Public, nodes := TopologyMode.Public })
  else c

/-- `if c.Spec.NetworkCIDR == "" && !c.SharedVPC()` assign the fixed default. -/
def defaultNetworkCIDR (c : Cluster) : Cluster :=
  if c.spec.networkCIDR.isEmpty && !c.sharedVPC then
    setNetworkCIDR c "172.20.0.0/16".toList
  else c

/-- `if c.Spec.NonMasqueradeCIDR == ""` assign the fixed default. -/
def defaultNonMasqueradeCIDR (c : Cluster) : Cluster :=
  if c.spec.nonMasqueradeCIDR.isEmpty then
    setNonMasqueradeCIDR c "100.64.0.0/10".toList
  else c

/-- `if c.Spec.MasterPublicName == "" && c.ObjectMeta.Name != ""` derive it. -/
def defaultMasterPublicName (c : Cluster) : Cluster :=
  if c.spec.masterPublicName.isEmpty && !c.name.isEmpty then
    setMasterPublicName c ("api.".toList ++ c.name)
  else c

/-- The block of unconditional field defaulting between the shared-network
resolution and the subnet allocator call, in source order. -/
def applyFieldDefaults (c : Cluster) : Cluster :=
  defaultMasterPublicName (defaultNonMasqueradeCIDR (defaultNetworkCIDR (defaultTopology c)))

/-- The fixed candidate exclusion list walked by `assignProxy`, in source
order. -/
def proxyCandidates (cluster : Cluster) : List Str :=
  [ "127.0.0.1".toList,
    "localhost".toList,
    "169.254.169.254".toList,
    cluster.spec.clusterDNSDomain,
    cluster.spec.masterPublicName,
    cluster.name,
    "100.64.0.1".toList,
    cluster.spec.nonMasqueradeCIDR ]

/-- `assignProxy`: when an egress proxy is configured, split the existing
`ProxyExcludes` on commas (an empty string yields an empty slice), walk the
candidate list skipping empty entries and entries already contained (as a
substring) in the raw original `ProxyExcludes`, append the rest, and re-join
with commas. -/
def assignProxy (cluster : Cluster) : Option EgressProxySpec :=
  match cluster.spec.egressProxy with
  | none => none
  | some egressProxy =>
    let egressSlice : List Str :=
      if egressProxy.proxyExcludes.isEmpty then []
      else egressProxy.proxyExcludes.splitOn ','
    let egressSlice := (proxyCandidates cluster).foldl
      (fun acc exclude =>
        if exclude.isEmpty then acc
        else if exclude <:+: egressProxy.proxyExcludes then acc
        else acc ++ [exclude]) egressSlice
    some { egressProxy with proxyExcludes := List.intercalate [','] egressSlice }

/-- The URL string of `FindLatestKubernetesVersion`. -/
def stableURL : Str :=
  "https://storage.googleapis.com/kubernetes-release/release/stable.txt".toList

/-- `strings.TrimSpace`: strip leading and trailing whitespace. -/
def trimSpace (s : Str) : Str :=
  ((s.dropWhile Char.isWhitespace).reverse.dropWhile Char.isWhitespace).reverse

/-- `FindLatestKubernetesVersion`: read the stable-version endpoint via the
external transport; wrap a read failure with context, otherwise trim the
response. -/
def findLatestKubernetesVersion (env : Env) : Except Err Str :=
  match env.readStableURL with
  | .error e =>
    .error ("KubernetesVersion not specified, and unable to download latest version from ".toList
      ++ ('"' :: (stableURL ++ ['"'])) ++ ": ".toList ++ e)
  | .ok b => .ok (trimSpace b)

/-- The channel half of `ensureKubernetesVersion`: when `KubernetesVersion` is
empty and a channel is named, load the channel (a load failure is fatal) and
assign its recommended version when it yields one (no recommendation is merely
logged). -/
def resolveVersionFromChannel (env : Env) (c : Cluster) : Except Err Cluster :=
  if c.spec.kubernetesVersion.isEmpty then
    if !c.spec.channel.isEmpty then
      match env.loadChannel c.spec.channel with
      | .error e => .error e
      | .ok channel =>
        match channel.recommendedVersion with
        | some v => .ok (setKubernetesVersion c v)
        | none => .ok c
    else .ok c
  else .ok c

/-- `ensureKubernetesVersion`: the channel step, then — if the version is
still empty — the latest-stable fetch.  The final component counts how many
times the latest-stable fetch was invoked (0 or 1), instrumenting the single
call site of `FindLatestKubernetesVersion` in the source. -/
def ensureKubernetesVersion (env : Env) (c : Cluster) : Cluster × Option Err × Nat :=
  match resolveVersionFromChannel env c with
  | .error e => (c, some e, 0)
  | .ok c1 =>
    if c1.spec.kubernetesVersion.isEmpty then
      match findLatestKubernetesVersion env with
      | .error e => (c1, some e, 1)
      | .ok v => (setKubernetesVersion c1 v, none, 1)
    else (c1, none, 0)

/-- The tail of `PerformAssignments` after the shared-network resolution:
field defaults, subnet allocator delegation, proxy exclusion rebuild, and
version resolution, in source order. -/
def postNetworkSteps (env : Env) (c0 : Cluster) : Cluster × Option Err :=
  let c2 := applyFieldDefaults c0
  match env.assignCIDRsToSubnets c2 with
  | (subnets, some e) => (setSubnets c2 subnets, some e)
  | (subnets, none) =>
    let c3 := setSubnets c2 subnets
    let c4 := setEgressProxy c3 (assignProxy c3)
    let r := ensureKubernetesVersion env c4
    (r.1, r.2.1)

/-- `PerformAssignments`: build the cloud, resolve a shared network's CIDR,
apply the field defaults, delegate subnet CIDRs to the allocator, rebuild the
proxy exclusions, and ensure the Kubernetes version; the first failure aborts
the pass, leaving earlier mutations in place. -/
def PerformAssignments (env : Env) (c : Cluster) : Cluster × Option Err :=
  match env.buildCloud c with
  | .error e => (c, some e)
  | .ok cloud =>
    match resolveSharedNetworkCIDR cloud c with
    | (c0, some e) => (c0, some e)
    | (c0, none) => postNetworkSteps env c0

/-! ### Small helper lemmas about the field setters and emptiness tests -/

theorem isEmpty_false_of_ne {l : Str} (h : l ≠ []) : l.isEmpty = false := by
  cases l with
  | nil => exact absurd rfl h
  | cons a t => rfl

theorem setNetworkCIDR_self (c : Cluster) : setNetworkCIDR c c.spec.networkCIDR = c := rfl

theorem setTopology_self (c : Cluster) : setTopology c c.spec.topology = c := rfl

theorem setNonMasqueradeCIDR_self (c : Cluster) :
    setNonMasqueradeCIDR c c.spec.nonMasqueradeCIDR = c := rfl

theorem setMasterPublicName_self (c : Cluster) :
    setMasterPublicName c c.spec.masterPublicName = c := rfl

theorem setKubernetesVersion_self (c : Cluster) :
    setKubernetesVersion c c.spec.kubernetesVersion = c := rfl

theorem setEgressProxy_self (c : Cluster) : setEgressProxy c c.spec.egressProxy = c := rfl

theorem setSubnets_self (c : Cluster) : setSubnets c c.spec.subnets = c := rfl

/-! ### Shape and identity lemmas for the individual steps -/

theorem resolveShared_of_ne (cloud : Cloud) (c : Cluster) (h : c.spec.networkCIDR ≠ []) :
    resolveSharedNetworkCIDR cloud c = (c, none) := by
  unfold resolveSharedNetworkCIDR
  simp [isEmpty_false_of_ne h]

theorem resolveShared_fst_shape (cloud : Cloud) (c : Cluster) :
    ∃ v, (resolveSharedNetworkCIDR cloud c).1 = setNetworkCIDR c v := by
  unfold resolveSharedNetworkCIDR
  split
  · split
    · exact ⟨c.spec.networkCIDR, (setNetworkCIDR_self c).symm⟩
    · exact ⟨c.spec.networkCIDR, (setNetworkCIDR_self c).symm⟩
    · rename_i vpcInfo _
      refine ⟨vpcInfo.cidr, ?_⟩
      dsimp only
      split <;> rfl
  · exact ⟨c.spec.networkCIDR, (setNetworkCIDR_self c).symm⟩

theorem defaultTopology_of_ne (c : Cluster) (h : c.spec.topology ≠ none) :
    defaultTopology c = c := by
  unfold defaultTopology
  simp [Option.isNone_iff_eq_none, h]

theorem defaultTopology_of_none (c : Cluster) (h : c.spec.topology = none) :
    defaultTopology c =
      setTopology c (some { masters := TopologyMode.Public, nodes := TopologyMode.Public }) := by
  unfold defaultTopology
  simp [h]

theorem defaultNetworkCIDR_of_ne (c : Cluster) (h : c.spec.networkCIDR ≠ []) :
    defaultNetworkCIDR c = c := by
  unfold defaultNetworkCIDR
  simp [isEmpty_false_of_ne h]

theorem defaultNonMasqueradeCIDR_of_ne (c : Cluster) (h : c.spec.nonMasqueradeCIDR ≠ []) :
    defaultNonMasqueradeCIDR c = c := by
  unfold defaultNonMasqueradeCIDR
  simp [isEmpty_false_of_ne h]

theorem defaultMasterPublicName_of_ne (c : Cluster) (h : c.spec.masterPublicName ≠ []) :
    defaultMasterPublicName c = c := by
  unfold defaultMasterPublicName
  simp [isEmpty_false_of_ne h]

theorem defaultMasterPublicName_of_noname (c : Cluster) (h : c.name = []) :
    defaultMasterPublicName c = c := by
  unfold defaultMasterPublicName
  simp [h]

theorem defaultTopology_networkCIDR (c : Cluster) :
    (defaultTopology c).spec.networkCIDR = c.spec.networkCIDR := by
  unfold defaultTopology; split <;> rfl

theorem defaultTopology_nonMasqueradeCIDR (c : Cluster) :
    (defaultTopology c).spec.nonMasqueradeCIDR = c.spec.nonMasqueradeCIDR := by
  unfold defaultTopology; split <;> rfl

theorem defaultTopology_masterPublicName (c : Cluster) :
    (defaultTopology c).spec.masterPublicName = c.spec.masterPublicName := by
  unfold defaultTopology; split <;> rfl

theorem defaultTopology_kubernetesVersion (c : Cluster) :
    (defaultTopology c).spec.kubernetesVersion = c.spec.kubernetesVersion := by
  unfold defaultTopology; split <;> rfl

theorem defaultNetworkCIDR_topology (c : Cluster) :
    (defaultNetworkCIDR c).spec.topology = c.spec.topology := by
  unfold defaultNetworkCIDR; split <;> rfl

theorem defaultNetworkCIDR_nonMasqueradeCIDR (c : Cluster) :
    (defaultNetworkCIDR c).spec.nonMasqueradeCIDR = c.spec.nonMasqueradeCIDR := by
  unfold defaultNetworkCIDR; split <;> rfl

theorem defaultNetworkCIDR_masterPublicName (c : Cluster) :
    (defaultNetworkCIDR c).spec.masterPublicName = c.spec.masterPublicName := by
  unfold defaultNetworkCIDR; split <;> rfl

theorem defaultNetworkCIDR_kubernetesVersion (c : Cluster) :
    (defaultNetworkCIDR c).spec.kubernetesVersion = c.spec.kubernetesVersion := by
  unfold defaultNetworkCIDR; split <;> rfl

theorem defaultNonMasqueradeCIDR_topology (c : Cluster) :
    (defaultNonMasqueradeCIDR c).spec.topology = c.spec.topology := by
  unfold defaultNonMasqueradeCIDR; split <;> rfl

theorem defaultNonMasqueradeCIDR_networkCIDR (c : Cluster) :
    (defaultNonMasqueradeCIDR c).spec.networkCIDR = c.spec.networkCIDR := by
  unfold defaultNonMasqueradeCIDR; split <;> rfl

theorem defaultNonMasqueradeCIDR_masterPublicName (c : Cluster) :
    (defaultNonMasqueradeCIDR c).spec.masterPublicName = c.spec.masterPublicName := by
  unfold defaultNonMasqueradeCIDR; split <;> rfl

theorem defaultNonMasqueradeCIDR_kubernetesVersion (c : Cluster) :
    (defaultNonMasqueradeCIDR c).spec.kubernetesVersion = c.spec.kubernetesVersion := by
  unfold defaultNonMasqueradeCIDR; split <;> rfl

theorem defaultMasterPublicName_topology (c : Cluster) :
    (defaultMasterPublicName c).spec.topology = c.spec.topology := by
  unfold defaultMasterPublicName; split <;> rfl

theorem defaultMasterPublicName_networkCIDR (c : Cluster) :
    (defaultMasterPublicName c).spec.networkCIDR = c.spec.networkCIDR := by
  unfold defaultMasterPublicName; split <;> rfl

theorem defaultMasterPublicName_nonMasqueradeCIDR (c : Cluster) :
    (defaultMasterPublicName c).spec.nonMasqueradeCIDR = c.spec.nonMasqueradeCIDR := by
  unfold defaultMasterPublicName; split <;> rfl

theorem defaultMasterPublicName_kubernetesVersion (c : Cluster) :
    (defaultMasterPublicName c).spec.kubernetesVersion = c.spec.kubernetesVersion := by
  unfold defaultMasterPublicName; split <;> rfl

/-! ### Aggregated lemmas about `applyFieldDefaults` -/

theorem applyFieldDefaults_id (c : Cluster)
    (h1 : c.spec.topology ≠ none) (h2 : c.spec.networkCIDR ≠ [])
    (h3 : c.spec.nonMasqueradeCIDR ≠ [])
    (h4 : c.spec.masterPublicName ≠ [] ∨ c.name = []) :
    applyFieldDefaults c = c := by
  unfold applyFieldDefaults
  rw [defaultTopology_of_ne c h1, defaultNetworkCIDR_of_ne c h2,
    defaultNonMasqueradeCIDR_of_ne c h3]
  cases h4 with
  | inl h => exact defaultMasterPublicName_of_ne c h
  | inr h => exact defaultMasterPublicName_of_noname c h

theorem applyFieldDefaults_kubernetesVersion (c : Cluster) :
    (applyFieldDefaults c).spec.kubernetesVersion = c.spec.kubernetesVersion := by
  unfold applyFieldDefaults
  rw [defaultMasterPublicName_kubernetesVersion, defaultNonMasqueradeCIDR_kubernetesVersion,
    defaultNetworkCIDR_kubernetesVersion, defaultTopology_kubernetesVersion]

theorem applyFieldDefaults_topology_of_none (c : Cluster) (h : c.spec.topology = none) :
    (applyFieldDefaults c).spec.topology =
      some { masters := TopologyMode.Public, nodes := TopologyMode.Public } := by
  unfold applyFieldDefaults
  rw [defaultMasterPublicName_topology, defaultNonMasqueradeCIDR_topology,
    defaultNetworkCIDR_topology, defaultTopology_of_none c h]
  rfl

theorem applyFieldDefaults_topology_of_ne (c : Cluster) (h : c.spec.topology ≠ none) :
    (applyFieldDefaults c).spec.topology = c.spec.topology := by
  unfold applyFieldDefaults
  rw [defaultMasterPublicName_topology, defaultNonMasqueradeCIDR_topology,
    defaultNetworkCIDR_topology, defaultTopology_of_ne c h]

theorem applyFieldDefaults_networkCIDR_of_ne (c : Cluster) (h : c.spec.networkCIDR ≠ []) :
    (applyFieldDefaults c).spec.networkCIDR = c.spec.networkCIDR := by
  unfold applyFieldDefaults
  rw [defaultMasterPublicName_networkCIDR, defaultNonMasqueradeCIDR_networkCIDR]
  rw [defaultNetworkCIDR_of_ne _ (by rw [defaultTopology_networkCIDR]; exact h),
    defaultTopology_networkCIDR]

theorem applyFieldDefaults_nonMasqueradeCIDR_of_ne (c : Cluster)
    (h : c.spec.nonMasqueradeCIDR ≠ []) :
    (applyFieldDefaults c).spec.nonMasqueradeCIDR = c.spec.nonMasqueradeCIDR := by
  unfold applyFieldDefaults
  rw [defaultMasterPublicName_nonMasqueradeCIDR]
  rw [defaultNonMasqueradeCIDR_of_ne _
    (by rw [defaultNetworkCIDR_nonMasqueradeCIDR, defaultTopology_nonMasqueradeCIDR]; exact h)]
  rw [defaultNetworkCIDR_nonMasqueradeCIDR, defaultTopology_nonMasqueradeCIDR]

theorem applyFieldDefaults_masterPublicName_of_ne (c : Cluster)
    (h : c.spec.masterPublicName ≠ []) :
    (applyFieldDefaults c).spec.masterPublicName = c.spec.masterPublicName := by
  unfold applyFieldDefaults
  rw [defaultMasterPublicName_of_ne _
    (by rw [defaultNonMasqueradeCIDR_masterPublicName, defaultNetworkCIDR_masterPublicName,
      defaultTopology_masterPublicName]; exact h)]
  rw [defaultNonMasqueradeCIDR_masterPublicName, defaultNetworkCIDR_masterPublicName,
    defaultTopology_masterPublicName]

/-! ### Lemmas about the version resolver -/

theorem resolveVersionFromChannel_of_ne (env : Env) (c : Cluster)
    (h : c.spec.kubernetesVersion ≠ []) :
    resolveVersionFromChannel env c = .ok c := by
  unfold resolveVersionFromChannel
  simp [isEmpty_false_of_ne h]

theorem resolveVersionFromChannel_ok_shape (env : Env) (c c1 : Cluster)
    (h : resolveVersionFromChannel env c = .ok c1) :
    ∃ v, c1 = setKubernetesVersion c v := by
  unfold resolveVersionFromChannel at h
  split at h
  · split at h
    · split at h
      · exact absurd h (by simp)
      · split at h
        · exact ⟨_, (Except.ok.injEq _ _ ▸ h.symm)⟩
        · exact ⟨c.spec.kubernetesVersion, by
            rw [setKubernetesVersion_self]; exact (Except.ok.inj h).symm⟩
    · exact ⟨c.spec.kubernetesVersion, by
        rw [setKubernetesVersion_self]; exact (Except.ok.inj h).symm⟩
  · exact ⟨c.spec.kubernetesVersion, by
      rw [setKubernetesVersion_self]; exact (Except.ok.inj h).symm⟩

theorem ensureKubernetesVersion_of_ne (env : Env) (c : Cluster)
    (h : c.spec.kubernetesVersion ≠ []) :
    ensureKubernetesVersion env c = (c, none, 0) := by
  unfold ensureKubernetesVersion
  rw [resolveVersionFromChannel_of_ne env c h]
  simp [isEmpty_false_of_ne h]

theorem ensureKubernetesVersion_fst_shape (env : Env) (c : Cluster) :
    ∃ v, (ensureKubernetesVersion env c).1 = setKubernetesVersion c v := by
  unfold ensureKubernetesVersion
  split
  · exact ⟨c.spec.kubernetesVersion, (setKubernetesVersion_self c).symm⟩
  · rename_i c1 h
    obtain ⟨v, hv⟩ := resolveVersionFromChannel_ok_shape env c c1 h
    subst hv
    split
    · split
      · exact ⟨v, rfl⟩
      · exact ⟨_, rfl⟩
    · exact ⟨v, rfl⟩

/-! ### Lemmas about the post-network tail of the pass -/

theorem defaultTopology_name (c : Cluster) : (defaultTopology c).name = c.name := by
  unfold defaultTopology; split <;> rfl

theorem defaultNetworkCIDR_name (c : Cluster) : (defaultNetworkCIDR c).name = c.name := by
  unfold defaultNetworkCIDR; split <;> rfl

theorem defaultNonMasqueradeCIDR_name (c : Cluster) :
    (defaultNonMasqueradeCIDR c).name = c.name := by
  unfold defaultNonMasqueradeCIDR; split <;> rfl

theorem defaultMasterPublicName_name (c : Cluster) :
    (defaultMasterPublicName c).name = c.name := by
  unfold defaultMasterPublicName; split <;> rfl

theorem applyFieldDefaults_name (c : Cluster) : (applyFieldDefaults c).name = c.name := by
  unfold applyFieldDefaults
  rw [defaultMasterPublicName_name, defaultNonMasqueradeCIDR_name, defaultNetworkCIDR_name,
    defaultTopology_name]

theorem pns_networkCIDR (env : Env) (c0 : Cluster) :
    (postNetworkSteps env c0).1.spec.networkCIDR = (applyFieldDefaults c0).spec.networkCIDR := by
  unfold postNetworkSteps
  dsimp only
  cases hA : env.assignCIDRsToSubnets (applyFieldDefaults c0) with
  | mk subnets eo =>
    cases eo with
    | none =>
      dsimp only
      obtain ⟨v, hv⟩ := ensureKubernetesVersion_fst_shape env
        (setEgressProxy (setSubnets (applyFieldDefaults c0) subnets)
          (assignProxy (setSubnets (applyFieldDefaults c0) subnets)))
      rw [hv]
      rfl
    | some e => rfl

theorem pns_topology (env : Env) (c0 : Cluster) :
    (postNetworkSteps env c0).1.spec.topology = (applyFieldDefaults c0).spec.topology := by
  unfold postNetworkSteps
  dsimp only
  cases hA : env.assignCIDRsToSubnets (applyFieldDefaults c0) with
  | mk subnets eo =>
    cases eo with
    | none =>
      dsimp only
      obtain ⟨v, hv⟩ := ensureKubernetesVersion_fst_shape env
        (setEgressProxy (setSubnets (applyFieldDefaults c0) subnets)
          (assignProxy (setSubnets (applyFieldDefaults c0) subnets)))
      rw [hv]
      rfl
    | some e => rfl

theorem pns_nonMasqueradeCIDR (env : Env) (c0 : Cluster) :
    (postNetworkSteps env c0).1.spec.nonMasqueradeCIDR
      = (applyFieldDefaults c0).spec.nonMasqueradeCIDR := by
  unfold postNetworkSteps
  dsimp only
  cases hA : env.assignCIDRsToSubnets (applyFieldDefaults c0) with
  | mk subnets eo =>
    cases eo with
    | none =>
      dsimp only
      obtain ⟨v, hv⟩ := ensureKubernetesVersion_fst_shape env
        (setEgressProxy (setSubnets (applyFieldDefaults c0) subnets)
          (assignProxy (setSubnets (applyFieldDefaults c0) subnets)))
      rw [hv]
      rfl
    | some e => rfl

theorem pns_masterPublicName (env : Env) (c0 : Cluster) :
    (postNetworkSteps env c0).1.spec.masterPublicName
      = (applyFieldDefaults c0).spec.masterPublicName := by
  unfold postNetworkSteps
  dsimp only
  cases hA : env.assignCIDRsToSubnets (applyFieldDefaults c0) with
  | mk subnets eo =>
    cases eo with
    | none =>
      dsimp only
      obtain ⟨v, hv⟩ := ensureKubernetesVersion_fst_shape env
        (setEgressProxy (setSubnets (applyFieldDefaults c0) subnets)
          (assignProxy (setSubnets (applyFieldDefaults c0) subnets)))
      rw [hv]
      rfl
    | some e => rfl

theorem pns_name (env : Env) (c0 : Cluster) :
    (postNetworkSteps env c0).1.name = c0.name := by
  unfold postNetworkSteps
  dsimp only
  cases hA : env.assignCIDRsToSubnets (applyFieldDefaults c0) with
  | mk subnets eo =>
    cases eo with
    | none =>
      dsimp only
      obtain ⟨v, hv⟩ := ensureKubernetesVersion_fst_shape env
        (setEgressProxy (setSubnets (applyFieldDefaults c0) subnets)
          (assignProxy (setSubnets (applyFieldDefaults c0) subnets)))
      rw [hv]
      exact applyFieldDefaults_name c0
    | some e => exact applyFieldDefaults_name c0

theorem pns_kubernetesVersion_of_ne (env : Env) (c0 : Cluster)
    (h : (applyFieldDefaults c0).spec.kubernetesVersion ≠ []) :
    (postNetworkSteps env c0).1.spec.kubernetesVersion
      = (applyFieldDefaults c0).spec.kubernetesVersion := by
  unfold postNetworkSteps
  dsimp only
  cases hA : env.assignCIDRsToSubnets (applyFieldDefaults c0) with
  | mk subnets eo =>
    cases eo with
    | none =>
      dsimp only
      rw [ensureKubernetesVersion_of_ne env
        (setEgressProxy (setSubnets (applyFieldDefaults c0) subnets)
          (assignProxy (setSubnets (applyFieldDefaults c0) subnets))) h]
      rfl
    | some e => rfl

/-! ### Per-field preservation of populated fields across the whole pass -/

theorem pa_kubernetesVersion_of_ne (env : Env) (c : Cluster)
    (h : c.spec.kubernetesVersion ≠ []) :
    (PerformAssignments env c).1.spec.kubernetesVersion = c.spec.kubernetesVersion := by
  unfold PerformAssignments
  cases hB : env.buildCloud c with
  | error e => rfl
  | ok cloud =>
    dsimp only
    obtain ⟨v, hv⟩ := resolveShared_fst_shape cloud c
    rcases hRS : resolveSharedNetworkCIDR cloud c with ⟨c0, eo⟩
    rw [hRS] at hv
    dsimp only at hv
    cases eo with
    | some e => dsimp only; rw [hv]; rfl
    | none =>
      dsimp only
      rw [pns_kubernetesVersion_of_ne env c0
        (by rw [applyFieldDefaults_kubernetesVersion, hv]; exact h),
        applyFieldDefaults_kubernetesVersion, hv]
      rfl

theorem pa_networkCIDR_of_ne (env : Env) (c : Cluster)
    (h : c.spec.networkCIDR ≠ []) :
    (PerformAssignments env c).1.spec.networkCIDR = c.spec.networkCIDR := by
  unfold PerformAssignments
  cases hB : env.buildCloud c with
  | error e => rfl
  | ok cloud =>
    dsimp only
    rw [resolveShared_of_ne cloud c h]
    dsimp only
    rw [pns_networkCIDR, applyFieldDefaults_networkCIDR_of_ne c h]

theorem pa_topology_of_ne (env : Env) (c : Cluster)
    (h : c.spec.topology ≠ none) :
    (PerformAssignments env c).1.spec.topology = c.spec.topology := by
  unfold PerformAssignments
  cases hB : env.buildCloud c with
  | error e => rfl
  | ok cloud =>
    dsimp only
    obtain ⟨v, hv⟩ := resolveShared_fst_shape cloud c
    rcases hRS : resolveSharedNetworkCIDR cloud c with ⟨c0, eo⟩
    rw [hRS] at hv
    dsimp only at hv
    cases eo with
    | some e => dsimp only; rw [hv]; rfl
    | none =>
      dsimp only
      rw [pns_topology, applyFieldDefaults_topology_of_ne c0 (by rw [hv]; exact h), hv]
      rfl

theorem pa_nonMasqueradeCIDR_of_ne (env : Env) (c : Cluster)
    (h : c.spec.nonMasqueradeCIDR ≠ []) :
    (PerformAssignments env c).1.spec.nonMasqueradeCIDR = c.spec.nonMasqueradeCIDR := by
  unfold PerformAssignments
  cases hB : env.buildCloud c with
  | error e => rfl
  | ok cloud =>
    dsimp only
    obtain ⟨v, hv⟩ := resolveShared_fst_shape cloud c
    rcases hRS : resolveSharedNetworkCIDR cloud c with ⟨c0, eo⟩
    rw [hRS] at hv
    dsimp only at hv
    cases eo with
    | some e => dsimp only; rw [hv]; rfl
    | none =>
      dsimp only
      rw [pns_nonMasqueradeCIDR,
        applyFieldDefaults_nonMasqueradeCIDR_of_ne c0 (by rw [hv]; exact h), hv]
      rfl

theorem pa_masterPublicName_of_ne (env : Env) (c : Cluster)
    (h : c.spec.masterPublicName ≠ []) :
    (PerformAssignments env c).1.spec.masterPublicName = c.spec.masterPublicName := by
  unfold PerformAssignments
  cases hB : env.buildCloud c with
  | error e => rfl
  | ok cloud =>
    dsimp only
    obtain ⟨v, hv⟩ := resolveShared_fst_shape cloud c
    rcases hRS : resolveSharedNetworkCIDR cloud c with ⟨c0, eo⟩
    rw [hRS] at hv
    dsimp only at hv
    cases eo with
    | some e => dsimp only; rw [hv]; rfl
    | none =>
      dsimp only
      rw [pns_masterPublicName,
        applyFieldDefaults_masterPublicName_of_ne c0 (by rw [hv]; exact h), hv]
      rfl

/-! ### Computation lemmas for the shared-network step -/

theorem resolveShared_lookup_error (cloud : Cloud) (c : Cluster) (e : Err)
    (h1 : c.sharedVPC = true) (h2 : c.spec.networkCIDR = [])
    (he : cloud.findVPCInfo c.spec.networkID = .error e) :
    resolveSharedNetworkCIDR cloud c = (c, some e) := by
  unfold resolveSharedNetworkCIDR
  simp [h1, h2, he]

theorem resolveShared_not_found (cloud : Cloud) (c : Cluster)
    (h1 : c.sharedVPC = true) (h2 : c.spec.networkCIDR = [])
    (hn : cloud.findVPCInfo c.spec.networkID = .ok none) :
    resolveSharedNetworkCIDR cloud c = (c, some (vpcNotFoundError c.spec.networkID)) := by
  unfold resolveSharedNetworkCIDR
  simp [h1, h2, hn]

theorem resolveShared_cidr_missing (cloud : Cloud) (c : Cluster) (info : VPCInfo)
    (h1 : c.sharedVPC = true) (h2 : c.spec.networkCIDR = [])
    (hi : cloud.findVPCInfo c.spec.networkID = .ok (some info)) (hc : info.cidr = []) :
    resolveSharedNetworkCIDR cloud c
      = (setNetworkCIDR c info.cidr, some networkCIDRMissingError) := by
  unfold resolveSharedNetworkCIDR
  simp [h1, h2, hi, setNetworkCIDR, hc]

theorem resolveShared_success (cloud : Cloud) (c : Cluster) (info : VPCInfo)
    (h1 : c.sharedVPC = true) (h2 : c.spec.networkCIDR = [])
    (hi : cloud.findVPCInfo c.spec.networkID = .ok (some info)) (hc : info.cidr ≠ []) :
    resolveSharedNetworkCIDR cloud c = (setNetworkCIDR c info.cidr, none) := by
  unfold resolveSharedNetworkCIDR
  simp [h1, h2, hi, setNetworkCIDR, isEmpty_false_of_ne hc]

/-! ### Claim theorems: simple orchestrator properties -/

/-- C10: `PerformAssignments` constructs the cloud-provider object first, before any
assignment; if the construction fails the error is returned with the cluster spec
entirely unmutated (the returned cluster is exactly the input), a failure that does
not depend on the cluster declaring a shared network. -/
theorem performAssignments_buildCloud_failure (env : Env) (c : Cluster) (e : Err)
    (h : env.buildCloud c = .error e) :
    PerformAssignments env c = (c, some e) := by
  unfold PerformAssignments
  rw [h]

/-- C2: non-overwrite invariant: each defaulted field that is already populated
before the call (`KubernetesVersion`, `NetworkCIDR`, `Topology`,
`NonMasqueradeCIDR`, `MasterPublicName`) keeps its value across
`PerformAssignments`, for every environment, i.e. regardless of what the channel
and latest-version collaborators return. -/
theorem performAssignments_no_overwrite (env : Env) (c : Cluster) :
    (c.spec.kubernetesVersion ≠ [] →
      (PerformAssignments env c).1.spec.kubernetesVersion = c.spec.kubernetesVersion)
    ∧ (c.spec.networkCIDR ≠ [] →
      (PerformAssignments env c).1.spec.networkCIDR = c.spec.networkCIDR)
    ∧ (c.spec.topology ≠ none →
      (PerformAssignments env c).1.spec.topology = c.spec.topology)
    ∧ (c.spec.nonMasqueradeCIDR ≠ [] →
      (PerformAssignments env c).1.spec.nonMasqueradeCIDR = c.spec.nonMasqueradeCIDR)
    ∧ (c.spec.masterPublicName ≠ [] →
      (PerformAssignments env c).1.spec.masterPublicName = c.spec.masterPublicName) :=
  ⟨pa_kubernetesVersion_of_ne env c, pa_networkCIDR_of_ne env c, pa_topology_of_ne env c,
    pa_nonMasqueradeCIDR_of_ne env c, pa_masterPublicName_of_ne env c⟩

/-- C9: topology default: for a cluster with `Topology = nil`, once the pass
reaches the topology step (cloud construction and shared-network resolution
succeed), the final topology has both Masters and Nodes Public — on every
subsequent path, including allocator or version-resolution failures. -/
theorem performAssignments_topology_default (env : Env) (cloud : Cloud) (c c0 : Cluster)
    (hB : env.buildCloud c = .ok cloud)
    (hRS : resolveSharedNetworkCIDR cloud c = (c0, none))
    (hT : c.spec.topology = none) :
    (PerformAssignments env c).1.spec.topology
      = some { masters := TopologyMode.Public, nodes := TopologyMode.Public } := by
  unfold PerformAssignments
  rw [hB]
  dsimp only
  obtain ⟨v, hv⟩ := resolveShared_fst_shape cloud c
  rw [hRS] at hv
  dsimp only at hv
  rw [hRS]
  dsimp only
  rw [pns_topology, applyFieldDefaults_topology_of_none c0 (by rw [hv]; exact hT)]

/-- C5: shared-network resolution: for a cluster declaring a shared network with
empty `NetworkCIDR`, the pass aborts with the collaborator's error when the VPC
lookup errors, aborts with the not-found error when it returns no VPC info,
returns the missing-CIDR error when the returned info has an empty CIDR, and on
a successful lookup assigns the returned CIDR to `NetworkCIDR`. -/
theorem performAssignments_sharedVPC_errors (env : Env) (cloud : Cloud) (c : Cluster)
    (hS : c.sharedVPC = true) (hC : c.spec.networkCIDR = [])
    (hB : env.buildCloud c = .ok cloud) :
    (∀ e, cloud.findVPCInfo c.spec.networkID = .error e →
        PerformAssignments env c = (c, some e))
    ∧ (cloud.findVPCInfo c.spec.networkID = .ok none →
        PerformAssignments env c = (c, some (vpcNotFoundError c.spec.networkID)))
    ∧ (∀ info, cloud.findVPCInfo c.spec.networkID = .ok (some info) → info.cidr = [] →
        (PerformAssignments env c).2 = some networkCIDRMissingError)
    ∧ (∀ info, cloud.findVPCInfo c.spec.networkID = .ok (some info) → info.cidr ≠ [] →
        (PerformAssignments env c).1.spec.networkCIDR = info.cidr) := by
  refine ⟨fun e he => ?_, fun hn => ?_, fun info hi hc => ?_, fun info hi hc => ?_⟩
  · unfold PerformAssignments
    rw [hB]
    dsimp only
    rw [resolveShared_lookup_error cloud c e hS hC he]
  · unfold PerformAssignments
    rw [hB]
    dsimp only
    rw [resolveShared_not_found cloud c hS hC hn]
  · unfold PerformAssignments
    rw [hB]
    dsimp only
    rw [resolveShared_cidr_missing cloud c info hS hC hi hc]
  · unfold PerformAssignments
    rw [hB]
    dsimp only
    rw [resolveShared_success cloud c info hS hC hi hc]
    dsimp only
    rw [pns_networkCIDR,
      applyFieldDefaults_networkCIDR_of_ne (setNetworkCIDR c info.cidr) hc]
    rfl

/-- C8: no rollback on allocator failure: when the subnet allocator errors, the
error is returned unchanged and the final cluster is exactly the defaulted
cluster with the allocator's partial subnet list stored — every field defaulted
by the earlier steps keeps its pre-failure value; nothing is reset. -/
theorem performAssignments_no_rollback (env : Env) (cloud : Cloud) (c c0 : Cluster)
    (s : List Subnet) (e : Err)
    (hB : env.buildCloud c = .ok cloud)
    (hRS : resolveSharedNetworkCIDR cloud c = (c0, none))
    (hA : env.assignCIDRsToSubnets (applyFieldDefaults c0) = (s, some e)) :
    PerformAssignments env c = (setSubnets (applyFieldDefaults c0) s, some e) := by
  unfold PerformAssignments
  rw [hB]
  dsimp only
  rw [hRS]
  dsimp only
  unfold postNetworkSteps
  dsimp only
  rw [hA]

/-! ### Claim theorems: version resolver -/

/-- C4: version-resolution precedence: with `KubernetesVersion` unset, a named
channel whose load succeeds and yields a (non-empty) recommended version means
the latest-stable fetch is never invoked (count 0); with no channel named, the
latest-stable fetch is invoked exactly once (count 1). -/
theorem ensureKubernetesVersion_precedence (env : Env) (c : Cluster)
    (h0 : c.spec.kubernetesVersion = []) :
    (∀ ch v, c.spec.channel ≠ [] → env.loadChannel c.spec.channel = .ok ch →
        ch.recommendedVersion = some v → v ≠ [] →
        (ensureKubernetesVersion env c).2.2 = 0)
    ∧ (c.spec.channel = [] → (ensureKubernetesVersion env c).2.2 = 1) := by
  constructor
  · intro ch v hch hld hrec hv
    have hrvc : resolveVersionFromChannel env c = .ok (setKubernetesVersion c v) := by
      unfold resolveVersionFromChannel
      simp [h0, isEmpty_false_of_ne hch, hld, hrec]
    unfold ensureKubernetesVersion
    rw [hrvc]
    dsimp only
    simp [setKubernetesVersion, isEmpty_false_of_ne hv]
  · intro hch
    have hrvc : resolveVersionFromChannel env c = .ok c := by
      unfold resolveVersionFromChannel
      simp [h0, hch]
    unfold ensureKubernetesVersion
    rw [hrvc]
    dsimp only
    rw [if_pos (by rw [h0]; rfl)]
    cases hF : findLatestKubernetesVersion env with
    | error e => rfl
    | ok v => rfl

/-- C7: channel error handling: with `KubernetesVersion` unset and a channel
named, a channel-load failure is returned immediately as a fatal error with the
fallback never attempted (count 0); a channel that loads but yields no
recommendation is non-fatal: the latest-stable fallback is attempted (count 1),
and if the fallback returns a version it is assigned with overall success. -/
theorem ensureKubernetesVersion_channel_errors (env : Env) (c : Cluster)
    (h0 : c.spec.kubernetesVersion = []) (hch : c.spec.channel ≠ []) :
    (∀ e, env.loadChannel c.spec.channel = .error e →
        ensureKubernetesVersion env c = (c, some e, 0))
    ∧ (∀ ch, env.loadChannel c.spec.channel = .ok ch → ch.recommendedVersion = none →
        (ensureKubernetesVersion env c).2.2 = 1
        ∧ ∀ v, findLatestKubernetesVersion env = .ok v →
            ensureKubernetesVersion env c = (setKubernetesVersion c v, none, 1)) := by
  constructor
  · intro e he
    have hrvc : resolveVersionFromChannel env c = .error e := by
      unfold resolveVersionFromChannel
      simp [h0, isEmpty_false_of_ne hch, he]
    unfold ensureKubernetesVersion
    rw [hrvc]
  · intro ch hld hrec
    have hrvc : resolveVersionFromChannel env c = .ok c := by
      unfold resolveVersionFromChannel
      simp [h0, isEmpty_false_of_ne hch, hld, hrec]
    constructor
    · unfold ensureKubernetesVersion
      rw [hrvc]
      dsimp only
      rw [if_pos (by rw [h0]; rfl)]
      cases hF : findLatestKubernetesVersion env with
      | error e => rfl
      | ok v => rfl
    · intro v hF
      unfold ensureKubernetesVersion
      rw [hrvc]
      dsimp only
      rw [if_pos (by rw [h0]; rfl), hF]

/-! ### Concrete collaborators and clusters for witnesses -/

/-- A fully empty cluster spec, the base for the concrete test clusters. -/
def emptySpec : ClusterSpec :=
  { networkID := [], networkCIDR := [], nonMasqueradeCIDR := [], topology := none,
    masterPublicName := [], kubernetesVersion := [], channel := [],
    egressProxy := none, clusterDNSDomain := [], subnets := [] }

def testCloud : Cloud :=
  { findVPCInfo := fun _ => .ok (some { cidr := "10.0.0.0/16".toList }) }

/-- A benign environment: cloud construction succeeds, the channel recommends
1.5.2, the stable endpoint serves v1.9.9, the allocator keeps subnets as-is. -/
def testEnv : Env :=
  { buildCloud := fun _ => .ok testCloud,
    loadChannel := fun _ => .ok { recommendedVersion := some "1.5.2".toList },
    readStableURL := .ok "v1.9.9".toList,
    assignCIDRsToSubnets := fun c => (c.spec.subnets, none) }

def plainCluster : Cluster := { name := "example.com".toList, spec := emptySpec }

def failCloudEnv : Env :=
  { testEnv with buildCloud := fun _ => .error "cannot build cloud".toList }

def populatedCluster : Cluster :=
  { name := "example.com".toList,
    spec := { emptySpec with
      kubernetesVersion := "v1.2.3".toList,
      networkCIDR := "10.10.0.0/16".toList,
      topology := some { masters := TopologyMode.Private, nodes := TopologyMode.Private },
      nonMasqueradeCIDR := "100.66.0.0/10".toList,
      masterPublicName := "api.other".toList } }

def sharedCluster : Cluster :=
  { name := "example.com".toList, spec := { emptySpec with networkID := "vpc-1".toList } }

def emptyCIDRCloud : Cloud := { findVPCInfo := fun _ => .ok (some { cidr := [] }) }

def emptyCIDREnv : Env := { testEnv with buildCloud := fun _ => .ok emptyCIDRCloud }

def failAllocEnv : Env :=
  { testEnv with assignCIDRsToSubnets := fun _ => ([], some "allocator failed".toList) }

def channelCluster : Cluster :=
  { name := "example.com".toList, spec := { emptySpec with channel := "stable".toList } }

def channelErrEnv : Env :=
  { testEnv with loadChannel := fun _ => .error "bad channel".toList }

def noRecEnv : Env :=
  { testEnv with loadChannel := fun _ => .ok { recommendedVersion := none } }

/-! ### Witnesses -/

/-- C10 witness: a failing cloud construction aborts the pass unmutated, on a
cluster that declares no shared network. -/
theorem performAssignments_buildCloud_failure_witness :
    plainCluster.sharedVPC = false
    ∧ PerformAssignments failCloudEnv plainCluster
        = (plainCluster, some "cannot build cloud".toList) :=
  ⟨by decide, performAssignments_buildCloud_failure failCloudEnv plainCluster _ rfl⟩

/-- C2 witness: every pre-populated field survives the pass unchanged. -/
theorem performAssignments_no_overwrite_witness :
    (PerformAssignments testEnv populatedCluster).1.spec.kubernetesVersion = "v1.2.3".toList
    ∧ (PerformAssignments testEnv populatedCluster).1.spec.networkCIDR
        = "10.10.0.0/16".toList
    ∧ (PerformAssignments testEnv populatedCluster).1.spec.topology
        = some { masters := TopologyMode.Private, nodes := TopologyMode.Private }
    ∧ (PerformAssignments testEnv populatedCluster).1.spec.nonMasqueradeCIDR
        = "100.66.0.0/10".toList
    ∧ (PerformAssignments testEnv populatedCluster).1.spec.masterPublicName
        = "api.other".toList :=
  ⟨(performAssignments_no_overwrite testEnv populatedCluster).1 (by decide),
    (performAssignments_no_overwrite testEnv populatedCluster).2.1 (by decide),
    (performAssignments_no_overwrite testEnv populatedCluster).2.2.1 (by decide),
    (performAssignments_no_overwrite testEnv populatedCluster).2.2.2.1 (by decide),
    (performAssignments_no_overwrite testEnv populatedCluster).2.2.2.2 (by decide)⟩

/-- C9 witness: a nil topology defaults to Public/Public. -/
theorem performAssignments_topology_default_witness :
    (PerformAssignments testEnv plainCluster).1.spec.topology
      = some { masters := TopologyMode.Public, nodes := TopologyMode.Public } :=
  performAssignments_topology_default testEnv testCloud plainCluster plainCluster rfl
    (by decide) rfl

/-- C5 witness: the spec's scenario — shared network `vpc-1`, empty
`NetworkCIDR`, collaborator returns VPC info with empty CIDR — yields the
missing-CIDR error. -/
theorem performAssignments_sharedVPC_errors_witness :
    (PerformAssignments emptyCIDREnv sharedCluster).2 = some networkCIDRMissingError :=
  (performAssignments_sharedVPC_errors emptyCIDREnv emptyCIDRCloud sharedCluster
    (by decide) rfl rfl).2.2.1 { cidr := [] } rfl rfl

/-- C8 witness: a failing allocator propagates its error and keeps the
defaulted fields. -/
theorem performAssignments_no_rollback_witness :
    PerformAssignments failAllocEnv plainCluster
      = (setSubnets (applyFieldDefaults plainCluster) [], some "allocator failed".toList) :=
  performAssignments_no_rollback failAllocEnv testCloud plainCluster plainCluster []
    ("allocator failed".toList) rfl (by decide) rfl

/-- C4 witness: channel present and recommending — no latest fetch; no channel
— exactly one latest fetch. -/
theorem ensureKubernetesVersion_precedence_witness :
    (ensureKubernetesVersion testEnv channelCluster).2.2 = 0
    ∧ (ensureKubernetesVersion testEnv plainCluster).2.2 = 1 :=
  ⟨(ensureKubernetesVersion_precedence testEnv channelCluster rfl).1
      { recommendedVersion := some "1.5.2".toList } ("1.5.2".toList)
      (by decide) rfl rfl (by decide),
    (ensureKubernetesVersion_precedence testEnv plainCluster rfl).2 rfl⟩

/-- C7 witness: a channel-load failure is fatal with no fallback; a channel
with no recommendation falls through to the latest fetch, which succeeds. -/
theorem ensureKubernetesVersion_channel_errors_witness :
    ensureKubernetesVersion channelErrEnv channelCluster
      = (channelCluster, some "bad channel".toList, 0)
    ∧ ensureKubernetesVersion noRecEnv channelCluster
      = (setKubernetesVersion channelCluster "v1.9.9".toList, none, 1) :=
  ⟨(ensureKubernetesVersion_channel_errors channelErrEnv channelCluster rfl (by decide)).1
      _ rfl,
    ((ensureKubernetesVersion_channel_errors noRecEnv channelCluster rfl (by decide)).2
      { recommendedVersion := none } rfl rfl).2 ("v1.9.9".toList) rfl⟩

/-! ### The proxy exclusion builder as parse/filter/join -/

/-- The append condition of the `assignProxy` loop as a predicate: the
candidate is non-empty and not contained, as a substring, in the raw original
exclusion string. -/
def keepCandidate (orig : Str) (x : Str) : Bool :=
  !x.isEmpty && !(decide (x <:+: orig))

theorem foldl_excludes_eq_filter (orig : Str) (l base : List Str) :
    l.foldl (fun acc x =>
      if x.isEmpty then acc else if x <:+: orig then acc else acc ++ [x]) base
    = base ++ l.filter (keepCandidate orig) := by
  induction l generalizing base with
  | nil => simp
  | cons x t ih =>
    simp only [List.foldl_cons, List.filter_cons]
    by_cases h1 : x.isEmpty
    · rw [if_pos h1]
      have hk : keepCandidate orig x = false := by simp [keepCandidate, h1]
      rw [hk]
      simpa using ih base
    · rw [if_neg h1]
      by_cases h2 : x <:+: orig
      · rw [if_pos h2]
        have hk : keepCandidate orig x = false := by simp [keepCandidate, h1, h2]
        rw [hk]
        simpa using ih base
      · rw [if_neg h2]
        have hk : keepCandidate orig x = true := by simp [keepCandidate, h1, h2]
        rw [hk]
        simp only [if_true]
        rw [ih (base ++ [x])]
        simp [List.append_assoc]

/-- Modelled from the spec (§4.3), for comparison with the source translation:
parse the existing `ProxyExcludes` as comma-separated (empty string to empty
sequence), walk the fixed ordered candidate list, skip empty candidates, append
a candidate only if the raw original string does not contain it as a substring
(appended entries are not checked against each other), re-join with commas. -/
def assignProxySpec (cluster : Cluster) : Option EgressProxySpec :=
  match cluster.spec.egressProxy with
  | none => none
  | some p =>
    let parsed := if p.proxyExcludes.isEmpty then [] else p.proxyExcludes.splitOn ','
    let appended := (proxyCandidates cluster).filter (keepCandidate p.proxyExcludes)
    some { p with proxyExcludes := List.intercalate [','] (parsed ++ appended) }

/-- The exclusion string built by one run of the builder: the parsed original
followed by the kept candidates, re-joined with commas. -/
def builtExcludes (cluster : Cluster) (p : EgressProxySpec) : Str :=
  List.intercalate [',']
    ((if p.proxyExcludes.isEmpty then [] else p.proxyExcludes.splitOn ',')
      ++ (proxyCandidates cluster).filter (keepCandidate p.proxyExcludes))

theorem assignProxy_some (cluster : Cluster) (p : EgressProxySpec)
    (h : cluster.spec.egressProxy = some p) :
    assignProxy cluster = some { p with proxyExcludes := builtExcludes cluster p } := by
  unfold assignProxy builtExcludes
  rw [h]
  dsimp only
  rw [foldl_excludes_eq_filter]

/-- C6: the proxy exclusion builder is exactly the spec's description: parse
the existing excludes as a comma-separated sequence (empty string to empty
sequence), walk the fixed ordered candidate list, skip empty candidates, append
each candidate not already contained as a substring of the raw original string
(with no dedup among appended entries), and re-join with commas. -/
theorem assignProxy_eq_specification (cluster : Cluster) :
    assignProxy cluster = assignProxySpec cluster := by
  cases h : cluster.spec.egressProxy with
  | none =>
    unfold assignProxy assignProxySpec
    rw [h]
  | some p =>
    rw [assignProxy_some cluster p h]
    unfold assignProxySpec builtExcludes
    rw [h]

/-! ### The substring dedup scenario -/

/-- The cluster of the spec's dedup scenario: `ProxyExcludes = "localhost"`,
cluster name `"localhost-prod"`. -/
def substringClaimCluster : Cluster :=
  { name := "localhost-prod".toList,
    spec := { emptySpec with egressProxy := some { proxyExcludes := "localhost".toList } } }

/-- The reversed scenario: `ProxyExcludes = "localhost-prod"`, no cluster
name. -/
def substringAmendedCluster : Cluster :=
  { name := [],
    spec := { emptySpec with
      egressProxy := some { proxyExcludes := "localhost-prod".toList } } }

/-- C3 counterexample: in the claim's scenario the builder does NOT treat the
candidate `"localhost-prod"` as already excluded — the substring test asks
whether the candidate is contained in the exclusion string, not the reverse —
so `"localhost-prod"` is appended to the result. -/
theorem proxyExcludes_substring_counterexample :
    assignProxy substringClaimCluster
      = some { proxyExcludes :=
          "localhost,127.0.0.1,169.254.169.254,localhost-prod,100.64.0.1".toList }
    ∧ "localhost-prod".toList <:+:
        "localhost,127.0.0.1,169.254.169.254,localhost-prod,100.64.0.1".toList := by
  constructor
  · decide
  · decide

/-- C3 amended: the dedup-by-substring false positive runs in the other
direction: a candidate that is a substring of the existing exclusion string is
skipped.  With `ProxyExcludes = "localhost-prod"` the fixed candidate
`"localhost"` is treated as already excluded and not appended, while in the
claim's original scenario (`ProxyExcludes = "localhost"`, cluster name
`"localhost-prod"`) the candidate `"localhost-prod"` is appended. -/
theorem proxyExcludes_substring_amended :
    keepCandidate "localhost-prod".toList "localhost".toList = false
    ∧ assignProxy substringAmendedCluster
      = some { proxyExcludes :=
          "localhost-prod,127.0.0.1,169.254.169.254,100.64.0.1".toList }
    ∧ keepCandidate "localhost".toList "localhost-prod".toList = true := by
  refine ⟨by decide, by decide, by decide⟩

/-! ### Substring lemmas for the exclusion string -/

theorem sub_of_pre {a b : Str} (h : a <+: b) : a <:+: b := by
  obtain ⟨t, ht⟩ := h
  exact ⟨[], t, by simpa using ht⟩

theorem intercalate_single (sep a : Str) : List.intercalate sep [a] = a := by
  simp [List.intercalate]

theorem intercalate_cons₂ (sep a b : Str) (t : List Str) :
    List.intercalate sep (a :: b :: t) = a ++ sep ++ List.intercalate sep (b :: t) := by
  simp [List.intercalate, List.append_assoc]

theorem mem_sub_intercalate (sep : Str) {x : Str} {L : List Str} (h : x ∈ L) :
    x <:+: List.intercalate sep L := by
  induction L with
  | nil => cases h
  | cons a t ih =>
    cases h with
    | head =>
      cases t with
      | nil => rw [intercalate_single]
      | cons b t' =>
        rw [intercalate_cons₂]
        exact sub_of_pre ⟨sep ++ List.intercalate sep (b :: t'), by simp [List.append_assoc]⟩
    | tail _ hmem =>
      cases t with
      | nil => cases hmem
      | cons b t' =>
        rw [intercalate_cons₂]
        exact (ih hmem).trans ⟨a ++ sep, [], by simp [List.append_assoc]⟩

theorem intercalate_pre_append (sep : Str) (L1 L2 : List Str) (h : L1 ≠ []) :
    List.intercalate sep L1 <+: List.intercalate sep (L1 ++ L2) := by
  induction L1 with
  | nil => exact absurd rfl h
  | cons a t ih =>
    cases t with
    | nil =>
      cases L2 with
      | nil => simp
      | cons b t2 =>
        rw [intercalate_single, List.cons_append, List.nil_append, intercalate_cons₂]
        exact ⟨sep ++ List.intercalate sep (b :: t2), by simp [List.append_assoc]⟩
    | cons b t' =>
      rw [intercalate_cons₂, List.cons_append, List.cons_append, intercalate_cons₂]
      obtain ⟨u, hu⟩ := ih (by simp)
      rw [List.cons_append] at hu
      refine ⟨u, ?_⟩
      rw [List.append_assoc (a ++ sep) _ u, hu]

theorem splitOn_comma_ne_nil (l : Str) : l.splitOn ',' ≠ [] :=
  List.splitOnP_ne_nil _ l

theorem candidate_sub_builtExcludes (cluster : Cluster) (p : EgressProxySpec)
    {x : Str} (hx : x ∈ proxyCandidates cluster) (hne : x ≠ []) :
    x <:+: builtExcludes cluster p := by
  unfold builtExcludes
  by_cases hk : keepCandidate p.proxyExcludes x = true
  · exact mem_sub_intercalate [','] (List.mem_append.2 (Or.inr (List.mem_filter.2 ⟨hx, hk⟩)))
  · have hxin : x <:+: p.proxyExcludes := by
      by_contra hno
      exact hk (by simp [keepCandidate, isEmpty_false_of_ne hne, hno])
    have horigne : p.proxyExcludes ≠ [] := by
      intro h0
      rw [h0] at hxin
      obtain ⟨s, t, hst⟩ := hxin
      have hs := List.append_eq_nil.1 hst
      have hx0 := List.append_eq_nil.1 hs.1
      exact hne hx0.2
    rw [if_neg (by simp [List.isEmpty_iff, horigne])]
    have hpre := intercalate_pre_append [','] (p.proxyExcludes.splitOn ',')
      ((proxyCandidates cluster).filter (keepCandidate p.proxyExcludes))
      (splitOn_comma_ne_nil p.proxyExcludes)
    rw [List.intercalate_splitOn] at hpre
    exact hxin.trans (sub_of_pre hpre)

theorem assignProxy_none (cluster : Cluster) (h : cluster.spec.egressProxy = none) :
    assignProxy cluster = none := by
  unfold assignProxy
  rw [h]

/-- Idempotence of the proxy exclusion builder: running it again on a cluster
whose `EgressProxy` already holds a previous run's output (and whose other
candidate-source fields are unchanged) reproduces that output. -/
theorem assignProxy_idem (c c' : Cluster)
    (hn : c'.name = c.name)
    (hd : c'.spec.clusterDNSDomain = c.spec.clusterDNSDomain)
    (hm : c'.spec.masterPublicName = c.spec.masterPublicName)
    (hq : c'.spec.nonMasqueradeCIDR = c.spec.nonMasqueradeCIDR)
    (hp : c'.spec.egressProxy = assignProxy c) :
    assignProxy c' = c'.spec.egressProxy := by
  have hcand : proxyCandidates c' = proxyCandidates c := by
    unfold proxyCandidates
    rw [hn, hd, hm, hq]
  cases hE : c.spec.egressProxy with
  | none =>
    rw [hp, assignProxy_none c hE]
    exact assignProxy_none c' (by rw [hp, assignProxy_none c hE])
  | some p =>
    rw [assignProxy_some c p hE] at hp
    have hfilter : (proxyCandidates c').filter
        (keepCandidate (builtExcludes c p)) = [] := by
      rw [hcand, List.filter_eq_nil_iff]
      intro x hx
      by_cases hne : x = []
      · simp [keepCandidate, hne]
      · simp [keepCandidate, isEmpty_false_of_ne hne,
          candidate_sub_builtExcludes c p hx hne]
    have hkey : builtExcludes c' { p with proxyExcludes := builtExcludes c p }
        = builtExcludes c p := by
      show List.intercalate [',']
        ((if (builtExcludes c p).isEmpty then [] else (builtExcludes c p).splitOn ',')
          ++ (proxyCandidates c').filter (keepCandidate (builtExcludes c p)))
        = builtExcludes c p
      rw [hfilter, List.append_nil]
      by_cases hb : builtExcludes c p = []
      · rw [if_pos (by simp [List.isEmpty_iff, hb]), hb]
        rfl
      · rw [if_neg (by simp [List.isEmpty_iff, hb])]
        rw [List.intercalate_splitOn]
    rw [assignProxy_some c' { p with proxyExcludes := builtExcludes c p } hp, hp, hkey]

/-! ### Idempotence of the version resolver -/

theorem setKubernetesVersion_eq_self (c : Cluster) (v : Str)
    (h : c.spec.kubernetesVersion = v) : setKubernetesVersion c v = c := by
  rw [← h, setKubernetesVersion_self]

theorem resolveVersionFromChannel_repeat (env : Env) (c cA c1 : Cluster)
    (hr : resolveVersionFromChannel env c = .ok cA)
    (hAkv : cA.spec.kubernetesVersion = [])
    (hch : c1.spec.channel = c.spec.channel)
    (h1 : c1.spec.kubernetesVersion = []) :
    resolveVersionFromChannel env c1 = .ok c1 := by
  unfold resolveVersionFromChannel at hr ⊢
  rw [if_pos (by rw [h1]; rfl), hch]
  by_cases hckv : c.spec.kubernetesVersion = []
  · rw [if_pos (by rw [hckv]; rfl)] at hr
    by_cases hcch : c.spec.channel = []
    · rw [if_neg (by simp [hcch])] at hr
      rw [if_neg (by simp [hcch])]
    · rw [if_pos (by simp [isEmpty_false_of_ne hcch])] at hr
      rw [if_pos (by simp [isEmpty_false_of_ne hcch])]
      cases hld : env.loadChannel c.spec.channel with
      | error e =>
        rw [hld] at hr
        simp at hr
      | ok ch =>
        rw [hld] at hr
        dsimp only at hr ⊢
        cases hrec : ch.recommendedVersion with
        | some v =>
          rw [hrec] at hr
          dsimp only at hr ⊢
          have hcA : setKubernetesVersion c v = cA := Except.ok.inj hr
          have hv : v = [] := by rw [← hcA] at hAkv; exact hAkv
          rw [hv, setKubernetesVersion_eq_self c1 [] h1]
        | none => rfl
  · rw [if_neg (by simp [isEmpty_false_of_ne hckv])] at hr
    have hceq : c = cA := Except.ok.inj hr
    rw [← hceq] at hAkv
    exact absurd hAkv hckv

theorem ensureKubernetesVersion_idem (env : Env) (c c1 : Cluster) (n : Nat)
    (h : ensureKubernetesVersion env c = (c1, none, n)) :
    (ensureKubernetesVersion env c1).1 = c1 := by
  by_cases h1 : c1.spec.kubernetesVersion = []
  · unfold ensureKubernetesVersion at h
    cases hr : resolveVersionFromChannel env c with
    | error e =>
      rw [hr] at h
      exact absurd (congrArg (fun z => z.2.1) h) (by simp)
    | ok cA =>
      rw [hr] at h
      dsimp only at h
      by_cases hA : cA.spec.kubernetesVersion = []
      · rw [if_pos (by rw [hA]; rfl)] at h
        cases hF : findLatestKubernetesVersion env with
        | error e =>
          rw [hF] at h
          exact absurd (congrArg (fun z => z.2.1) h) (by simp)
        | ok vL =>
          rw [hF] at h
          have hc1 : setKubernetesVersion cA vL = c1 := congrArg Prod.fst h
          have hvL : vL = [] := by rw [← hc1] at h1; exact h1
          have hch : c1.spec.channel = c.spec.channel := by
            rw [← hc1]
            obtain ⟨v', hsh⟩ := resolveVersionFromChannel_ok_shape env c cA hr
            rw [hsh]
            rfl
          have hrvc2 := resolveVersionFromChannel_repeat env c cA c1 hr hA hch h1
          unfold ensureKubernetesVersion
          rw [hrvc2]
          dsimp only
          rw [if_pos (by rw [h1]; rfl), hF]
          dsimp only
          rw [hvL]
          exact setKubernetesVersion_eq_self c1 [] h1
      · rw [if_neg (by simp [isEmpty_false_of_ne hA])] at h
        have hc1 : cA = c1 := congrArg Prod.fst h
        rw [hc1] at hA
        exact absurd h1 hA
  · rw [ensureKubernetesVersion_of_ne env c1 h1]

/-! ### Invariants established by the defaulting block -/

theorem defaultTopology_sharedVPC (c : Cluster) :
    (defaultTopology c).sharedVPC = c.sharedVPC := by
  unfold defaultTopology; split <;> rfl

theorem applyFieldDefaults_topology_ne (c : Cluster) :
    (applyFieldDefaults c).spec.topology ≠ none := by
  unfold applyFieldDefaults
  rw [defaultMasterPublicName_topology, defaultNonMasqueradeCIDR_topology,
    defaultNetworkCIDR_topology]
  unfold defaultTopology
  split
  · dsimp only [setTopology]
    simp
  · rename_i hcond
    intro h
    exact hcond (by rw [h]; rfl)

theorem applyFieldDefaults_nonMasqueradeCIDR_ne (c : Cluster) :
    (applyFieldDefaults c).spec.nonMasqueradeCIDR ≠ [] := by
  unfold applyFieldDefaults
  rw [defaultMasterPublicName_nonMasqueradeCIDR]
  unfold defaultNonMasqueradeCIDR
  split
  · dsimp only [setNonMasqueradeCIDR]
    decide
  · rename_i hcond
    intro h
    exact hcond (by rw [h]; rfl)

theorem applyFieldDefaults_networkCIDR_ne (c : Cluster)
    (h : c.sharedVPC = true → c.spec.networkCIDR ≠ []) :
    (applyFieldDefaults c).spec.networkCIDR ≠ [] := by
  unfold applyFieldDefaults
  rw [defaultMasterPublicName_networkCIDR, defaultNonMasqueradeCIDR_networkCIDR]
  unfold defaultNetworkCIDR
  split
  · dsimp only [setNetworkCIDR]
    decide
  · rename_i hcond
    rw [defaultTopology_networkCIDR]
    intro hnil
    cases hs : c.sharedVPC with
    | true => exact absurd hnil (h hs)
    | false =>
      apply hcond
      rw [defaultTopology_networkCIDR, defaultTopology_sharedVPC, hnil, hs]
      rfl

theorem applyFieldDefaults_mpn_or_name (c : Cluster) :
    (applyFieldDefaults c).spec.masterPublicName ≠ [] ∨ (applyFieldDefaults c).name = [] := by
  unfold applyFieldDefaults
  unfold defaultMasterPublicName
  split
  · left
    dsimp only [setMasterPublicName]
    intro hc
    exact absurd (List.append_eq_nil.1 hc).1 (by decide)
  · rename_i hcond
    by_cases hm : (defaultNonMasqueradeCIDR (defaultNetworkCIDR
        (defaultTopology c))).spec.masterPublicName = []
    · right
      by_contra hname
      apply hcond
      rw [hm]
      simp [isEmpty_false_of_ne hname]
    · left
      exact hm

theorem resolveShared_success_ncidr (cloud : Cloud) (c c0 : Cluster)
    (h : resolveSharedNetworkCIDR cloud c = (c0, none)) :
    c0.sharedVPC = true → c0.spec.networkCIDR ≠ [] := by
  intro hs
  unfold resolveSharedNetworkCIDR at h
  split at h
  · cases hF : cloud.findVPCInfo c.spec.networkID with
    | error e =>
      rw [hF] at h
      exact absurd (congrArg Prod.snd h) (by simp)
    | ok o =>
      cases o with
      | none =>
        rw [hF] at h
        exact absurd (congrArg Prod.snd h) (by simp)
      | some info =>
        rw [hF] at h
        dsimp only at h
        split at h
        · exact absurd (congrArg Prod.snd h) (by simp)
        · rename_i hcond
          have hc0 : setNetworkCIDR c info.cidr = c0 := congrArg Prod.fst h
          intro hnil
          apply hcond
          rw [hc0, hnil]
          rfl
  · rename_i hcond
    have hc0 : c = c0 := congrArg Prod.fst h
    intro hnil
    apply hcond
    rw [← hc0] at hs hnil
    simp [hs, hnil]

/-- C1: idempotence: a second `PerformAssignments` on the result of a first
successful pass — with the external collaborators answering as before, in
particular the subnet allocator returning the already-assigned subnets with no
error — changes no field: its resulting cluster is exactly the first pass's
result. -/
theorem performAssignments_idempotent (env : Env) (c c1 : Cluster)
    (h1 : PerformAssignments env c = (c1, none))
    (hAlloc : env.assignCIDRsToSubnets c1 = (c1.spec.subnets, none)) :
    (PerformAssignments env c1).1 = c1 := by
  unfold PerformAssignments at h1
  cases hB : env.buildCloud c with
  | error e =>
    rw [hB] at h1
    dsimp only at h1
    exact absurd (congrArg Prod.snd h1) (by simp)
  | ok cloud =>
    rw [hB] at h1
    dsimp only at h1
    rcases hRS : resolveSharedNetworkCIDR cloud c with ⟨c0, eo⟩
    rw [hRS] at h1
    cases eo with
    | some e =>
      dsimp only at h1
      exact absurd (congrArg Prod.snd h1) (by simp)
    | none =>
    dsimp only at h1
    unfold postNetworkSteps at h1
    dsimp only at h1
    rcases hA1 : env.assignCIDRsToSubnets (applyFieldDefaults c0) with ⟨s, eo2⟩
    rw [hA1] at h1
    cases eo2 with
    | some e =>
      dsimp only at h1
      exact absurd (congrArg Prod.snd h1) (by simp)
    | none =>
    dsimp only at h1
    set c3 := setSubnets (applyFieldDefaults c0) s with hc3
    set c4 := setEgressProxy c3 (assignProxy c3) with hc4
    have hE1 : (ensureKubernetesVersion env c4).1 = c1 := congrArg Prod.fst h1
    have hE2 : (ensureKubernetesVersion env c4).2.1 = none := congrArg Prod.snd h1
    have hE : ensureKubernetesVersion env c4
        = (c1, none, (ensureKubernetesVersion env c4).2.2) := by
      rw [← hE1, ← hE2]
    obtain ⟨vk, hvk⟩ := ensureKubernetesVersion_fst_shape env c4
    have hc1 : c1 = setKubernetesVersion c4 vk := by rw [← hE1, hvk]
    have inv_ncidr : c1.spec.networkCIDR ≠ [] := by
      rw [hc1, hc4, hc3]
      exact applyFieldDefaults_networkCIDR_ne c0 (resolveShared_success_ncidr cloud c c0 hRS)
    have inv_topo : c1.spec.topology ≠ none := by
      rw [hc1, hc4, hc3]
      exact applyFieldDefaults_topology_ne c0
    have inv_nm : c1.spec.nonMasqueradeCIDR ≠ [] := by
      rw [hc1, hc4, hc3]
      exact applyFieldDefaults_nonMasqueradeCIDR_ne c0
    have inv_mo : c1.spec.masterPublicName ≠ [] ∨ c1.name = [] := by
      rw [hc1, hc4, hc3]
      exact applyFieldDefaults_mpn_or_name c0
    have hpx : assignProxy c1 = c1.spec.egressProxy := by
      apply assignProxy_idem c3 c1
      · rw [hc1, hc4]; rfl
      · rw [hc1, hc4]; rfl
      · rw [hc1, hc4]; rfl
      · rw [hc1, hc4]; rfl
      · rw [hc1, hc4]; rfl
    unfold PerformAssignments
    cases hB2 : env.buildCloud c1 with
    | error e => rfl
    | ok cloud2 =>
      dsimp only
      rw [resolveShared_of_ne cloud2 c1 inv_ncidr]
      dsimp only
      unfold postNetworkSteps
      dsimp only
      rw [applyFieldDefaults_id c1 inv_topo inv_ncidr inv_nm inv_mo, hAlloc]
      dsimp only
      rw [setSubnets_self c1, hpx, setEgressProxy_self c1]
      exact ensureKubernetesVersion_idem env c4 c1 _ hE

/-- A concrete starting cluster for the idempotence witness: named channel and
a pre-existing egress proxy exclusion string. -/
def idemStartCluster : Cluster :=
  { name := "example.com".toList,
    spec := { emptySpec with
      egressProxy := some { proxyExcludes := "corp.internal".toList },
      channel := "stable".toList } }

/-- The result of the first `PerformAssignments` pass on `idemStartCluster`
under `testEnv`. -/
def idemResultCluster : Cluster :=
  { name := "example.com".toList,
    spec := { networkID := [],
              networkCIDR := "172.20.0.0/16".toList,
              nonMasqueradeCIDR := "100.64.0.0/10".toList,
              topology := some { masters := TopologyMode.Public, nodes := TopologyMode.Public },
              masterPublicName := "api.example.com".toList,
              kubernetesVersion := "1.5.2".toList,
              channel := "stable".toList,
              egressProxy := some { proxyExcludes := "corp.internal,127.0.0.1,localhost,169.254.169.254,api.example.com,example.com,100.64.0.1,100.64.0.0/10".toList },
              clusterDNSDomain := [],
              subnets := [] } }

/-- C1 witness: a concrete first pass produces `idemResultCluster`, and the
second pass on it changes nothing. -/
theorem performAssignments_idempotent_witness :
    PerformAssignments testEnv idemStartCluster = (idemResultCluster, none)
    ∧ (PerformAssignments testEnv idemResultCluster).1 = idemResultCluster :=
  ⟨by decide,
    performAssignments_idempotent testEnv idemStartCluster idemResultCluster
      (by decide) (by decide)⟩
